import Mathlib

/-!
Shallow embedding of the chaitanya-water order-taking application
(`src/app.py`): data model (SQLAlchemy `User` and `Order` rows, the Flask
session), the auth decorators (`require_customer`, `require_staff`) and the
route handlers that the specification's claims are about.

The database is modelled as a list of rows; the Flask session as a record of
the two optional keys the app uses (`customer_phone`, `staff_id`); an HTTP
form as a record of optional string fields (`request.form.get k d` becomes
`field.getD d`).  `flash` messages are collected in the handler result.
Python's `int(...)` applied to a form string is modelled by `pyInt`
(ASCII decimal digits with optional sign, surrounding whitespace, and
single-underscore digit separators).
-/

namespace ChaitanyaWater

/-- Row of the `User` table (staff account): `id`, `username`,
`password_hash`, `role` (`"admin"` / `"manager"`). -/
structure User where
  id : Nat
  username : String
  password_hash : String
  role : String
deriving DecidableEq, Repr

/-- Row of the `Order` table.  `created_at` is the creation timestamp
(`datetime.utcnow`), modelled as a `Nat`. -/
structure Order where
  id : Nat
  customer_phone : String
  customer_address : String
  cans : Int
  cooling : Bool
  payment_method : String
  payment_status : String
  payment_details : Option String
  created_at : Nat
deriving DecidableEq, Repr

/-- The Flask session, restricted to the two keys the app reads and writes:
`session["customer_phone"]` and `session["staff_id"]`. -/
structure Session where
  customer_phone : Option String
  staff_id : Option Nat
deriving DecidableEq, Repr

/-- Redirect targets used by the handlers (`url_for` names). -/
inductive Route where
  | index
  | customerDashboard
  | staffDashboard
  | staffLogin
deriving DecidableEq, Repr

/-- Handler outcome: a redirect, a rendered template, a 403 `Forbidden`
body, or the 404 raised by `get_or_404`. -/
inductive Response where
  | redirect (r : Route)
  | render (template : String)
  | forbidden
  | notFound
deriving DecidableEq, Repr

/-- What a handler call produces: the session after the call, the `Order`
table after the call, the HTTP response, and the flashed messages
(message, category). -/
structure RouteResult where
  sess : Session
  db : List Order
  resp : Response
  flashes : List (String × String)
deriving DecidableEq, Repr

/-- `Order.query.get(oid)` / first row with the given primary key. -/
def findOrder (db : List Order) (oid : Nat) : Option Order :=
  db.find? (fun o => o.id == oid)

/-- `User.query.get(uid)`. -/
def findUser (users : List User) (uid : Nat) : Option User :=
  users.find? (fun u => u.id == uid)

/-- Python's `str.strip()` with no argument: remove leading and trailing
whitespace characters. -/
def pyStrip (s : String) : String :=
  ⟨((s.data.dropWhile Char.isWhitespace).reverse.dropWhile Char.isWhitespace).reverse⟩

/-- Digit run of a Python integer literal after the first digit: decimal
digits, optionally separated by single underscores; accumulates the value.
The flag records that the previous character was an underscore (so the next
one must be a digit, and the run must not end). -/
def pyDigitsAux : List Char → Bool → Nat → Option Nat
  | [], afterUnd, acc => if afterUnd then none else some acc
  | c :: cs, afterUnd, acc =>
    if c.isDigit then pyDigitsAux cs false (acc * 10 + (c.toNat - 48))
    else if c = '_' ∧ afterUnd = false then pyDigitsAux cs true acc
    else none

/-- Unsigned part of a Python integer literal: nonempty, starts with a
digit, single underscores allowed between digits. -/
def pyDigits : List Char → Option Nat
  | [] => none
  | c :: cs => if c.isDigit then pyDigitsAux cs false (c.toNat - 48) else none

/-- Python's `int(s)` on a string: strip surrounding whitespace, optional
sign, decimal digits (ASCII) with single-underscore separators; `none`
models the `ValueError` caught by the callers. -/
def pyInt (s : String) : Option Int :=
  match (pyStrip s).data with
  | '+' :: rest => (pyDigits rest).map (fun n => (n : Int))
  | '-' :: rest => (pyDigits rest).map (fun n => -(n : Int))
  | rest => (pyDigits rest).map (fun n => (n : Int))

/-- `POST /send_otp` (`route_send_otp`): trims the submitted phone; empty
means flash an error and redirect to the index, otherwise store the phone in
the session and redirect to the customer dashboard. -/
def route_send_otp (sess : Session) (db : List Order) (phoneField : Option String) :
    RouteResult :=
  let phone := pyStrip (phoneField.getD "")
  if phone = "" then
    ⟨sess, db, .redirect .index, [("Enter phone number.", "error")]⟩
  else
    ⟨{ sess with customer_phone := some phone }, db, .redirect .customerDashboard,
      [("Continuing with phone number.", "info")]⟩

/-- `GET /logout`: `session.clear()` then redirect to the index. -/
def logout (sess : Session) (db : List Order) : RouteResult :=
  let _ := sess
  ⟨⟨none, none⟩, db, .redirect .index, [("Logged out.", "info")]⟩

/-- `GET /staff/logout`: `session.pop("staff_id", None)` then redirect to
the index. -/
def staff_logout (sess : Session) (db : List Order) : RouteResult :=
  ⟨{ sess with staff_id := none }, db, .redirect .index, [("Staff logged out.", "info")]⟩

/-- Outcome of the `require_staff(role)` decorator's checks. -/
inductive StaffGuard where
  | redirectLogin (sess : Session)
  | permissionDenied
  | allow (u : User)
deriving DecidableEq, Repr

/-- The `require_staff(role)` decorator: no `staff_id` in the session or a
`staff_id` that resolves to no `User` row redirects to staff login (popping
the stale id in the latter case); a truthy `role` argument different from
the account's role is a permission denial; otherwise the wrapped handler
runs with the resolved account. -/
def require_staff (users : List User) (role : Option String) (sess : Session) :
    StaffGuard :=
  match sess.staff_id with
  | none => .redirectLogin sess
  | some sid =>
    match findUser users sid with
    | none => .redirectLogin { sess with staff_id := none }
    | some u =>
      match role with
      | some r => if r ≠ "" ∧ u.role ≠ r then .permissionDenied else .allow u
      | none => .allow u

/-- Result of a staff route when `require_staff` redirects to login. -/
def staffLoginRedirect (s : Session) (db : List Order) : RouteResult :=
  ⟨s, db, .redirect .staffLogin, []⟩

/-- Result of a staff route when `require_staff` denies on role. -/
def permissionDeniedResult (sess : Session) (db : List Order) : RouteResult :=
  ⟨sess, db, .redirect .staffDashboard, [("Permission denied.", "error")]⟩

/-- `GET /staff` (`staff_dashboard`): behind `require_staff()`; renders the
dashboard. -/
def staff_dashboard (users : List User) (db : List Order) (sess : Session) :
    RouteResult :=
  match require_staff users none sess with
  | .redirectLogin s => staffLoginRedirect s db
  | .permissionDenied => permissionDeniedResult sess db
  | .allow _ => ⟨sess, db, .render "staff_dashboard", []⟩

/-- Form posted to `enter_payment`: the single `payment_details` field. -/
structure PaymentForm where
  payment_details : Option String
deriving DecidableEq, Repr

/-- `POST /staff/order/<id>/enter_payment` (`enter_payment`): behind
`require_staff()`; 404 on an unknown order, error flash on empty trimmed
details, otherwise set `payment_details` to `username ++ ": " ++ details`
and `payment_status` to `"paid"`. -/
def enter_payment (users : List User) (db : List Order) (sess : Session)
    (order_id : Nat) (f : PaymentForm) : RouteResult :=
  match require_staff users none sess with
  | .redirectLogin s => staffLoginRedirect s db
  | .permissionDenied => permissionDeniedResult sess db
  | .allow u =>
    match findOrder db order_id with
    | none => ⟨sess, db, .notFound, []⟩
    | some _ =>
      let payment_details := pyStrip (f.payment_details.getD "")
      if payment_details = "" then
        ⟨sess, db, .redirect .staffDashboard, [("Enter payment details.", "error")]⟩
      else
        ⟨sess,
          db.map (fun o =>
            if o.id = order_id then
              { o with
                payment_details := some (u.username ++ ": " ++ payment_details),
                payment_status := "paid" }
            else o),
          .redirect .staffDashboard, [("Payment recorded.", "success")]⟩

/-- Form posted to `edit_order`. -/
structure EditOrderForm where
  customer_address : Option String
  cans : Option String
  cooling : Option String
  payment_method : Option String
  payment_status : Option String
  payment_details : Option String
deriving DecidableEq, Repr

/-- The field assignments of `edit_order`'s POST branch applied to one
order row: `request.form.get(k, existing)` keeps the existing value when
the field is absent; `int(...)` on `cans` falls back to the existing value
when parsing raises; `cooling` is recomputed from the raw value (absent
defaults to `"no"`). -/
def apply_edit (f : EditOrderForm) (o : Order) : Order :=
  { o with
    customer_address := f.customer_address.getD o.customer_address,
    cans :=
      match f.cans with
      | none => o.cans
      | some s => (pyInt s).getD o.cans,
    cooling := f.cooling.getD "no" == "yes",
    payment_method := f.payment_method.getD o.payment_method,
    payment_status := f.payment_status.getD o.payment_status,
    payment_details :=
      match f.payment_details with
      | some s => some s
      | none => o.payment_details }

/-- `POST /staff/order/<id>/edit` (`edit_order`): behind
`require_staff(role="admin")`; 404 on an unknown order, otherwise applies
the patch and redirects to the staff dashboard. -/
def edit_order_post (users : List User) (db : List Order) (sess : Session)
    (order_id : Nat) (f : EditOrderForm) : RouteResult :=
  match require_staff users (some "admin") sess with
  | .redirectLogin s => staffLoginRedirect s db
  | .permissionDenied => permissionDeniedResult sess db
  | .allow _ =>
    match findOrder db order_id with
    | none => ⟨sess, db, .notFound, []⟩
    | some _ =>
      ⟨sess, db.map (fun o => if o.id = order_id then apply_edit f o else o),
        .redirect .staffDashboard, [("Order updated.", "success")]⟩

/-- `POST /staff/order/<id>/delete` (`delete_order`): behind
`require_staff(role="admin")`; 404 on an unknown order, otherwise removes
the row. -/
def delete_order (users : List User) (db : List Order) (sess : Session)
    (order_id : Nat) : RouteResult :=
  match require_staff users (some "admin") sess with
  | .redirectLogin s => staffLoginRedirect s db
  | .permissionDenied => permissionDeniedResult sess db
  | .allow _ =>
    match findOrder db order_id with
    | none => ⟨sess, db, .notFound, []⟩
    | some _ =>
      ⟨sess, db.filter (fun o => o.id != order_id), .redirect .staffDashboard,
        [("Order deleted.", "info")]⟩

/-- `GET /order/<id>` (`view_order`): 404 on an unknown order; `Forbidden`
when the session has a customer phone different from the order's phone;
otherwise renders the order. -/
def view_order (db : List Order) (sess : Session) (order_id : Nat) : RouteResult :=
  match findOrder db order_id with
  | none => ⟨sess, db, .notFound, []⟩
  | some o =>
    match sess.customer_phone with
    | some p =>
      if p ≠ o.customer_phone then ⟨sess, db, .forbidden, []⟩
      else ⟨sess, db, .render "view_order", []⟩
    | none => ⟨sess, db, .render "view_order", []⟩

/-- Form posted to `place_order`. -/
structure PlaceOrderForm where
  phone : Option String
  cans : Option String
  cooling : Option String
  address : Option String
  payment_method : Option String
deriving DecidableEq, Repr

/-- `POST /place_order` (`place_order`): behind `require_customer` (no
`customer_phone` in the session redirects to the index).  The phone is the
trimmed form phone if non-empty, else the session phone; `cans` is
`int(form)` defaulting to `1` on absence or parse failure; `cooling` is
`raw == "yes"` with `"no"` as the absent default; empty address or phone
flashes an error and creates no row; otherwise a new `Order` row is added
with `payment_status = "pending"` and no `payment_details`.  `nextId` is
the primary key the store assigns, `now` the `created_at` timestamp. -/
def place_order (db : List Order) (sess : Session) (f : PlaceOrderForm)
    (nextId : Nat) (now : Nat) : RouteResult :=
  match sess.customer_phone with
  | none => ⟨sess, db, .redirect .index, []⟩
  | some sessPhone =>
    let phone_from_form := pyStrip (f.phone.getD "")
    let phone := if phone_from_form ≠ "" then phone_from_form else sessPhone
    let cans : Int :=
      match f.cans with
      | none => 1
      | some s => (pyInt s).getD 1
    let cooling := f.cooling.getD "no" == "yes"
    let address := pyStrip (f.address.getD "")
    let payment_method := f.payment_method.getD "offline"
    if address = "" ∨ phone = "" then
      ⟨sess, db, .redirect .customerDashboard, [("Phone and Address are required.", "error")]⟩
    else
      ⟨sess,
        db ++ [{ id := nextId, customer_phone := phone, customer_address := address,
                 cans := cans, cooling := cooling, payment_method := payment_method,
                 payment_status := "pending", payment_details := none,
                 created_at := now }],
        .redirect .customerDashboard, [("Order placed.", "success")]⟩

/-! Helper lemmas about the `require_staff` guard. -/

/-- A session whose `staff_id` resolves to an account passes the role-free
guard with that account. -/
theorem require_staff_resolved_allow {users : List User} {sess : Session}
    {sid : Nat} {u : User} (h1 : sess.staff_id = some sid)
    (h2 : findUser users sid = some u) :
    require_staff users none sess = .allow u := by
  simp [require_staff, h1, h2]

/-- A resolved account whose role is not `"admin"` is denied by
`require_staff(role="admin")`. -/
theorem require_staff_admin_denied {users : List User} {sess : Session}
    {sid : Nat} {u : User} (h1 : sess.staff_id = some sid)
    (h2 : findUser users sid = some u) (h3 : u.role ≠ "admin") :
    require_staff users (some "admin") sess = .permissionDenied := by
  simp [require_staff, h1, h2, h3]

/-- A resolved admin account passes `require_staff(role="admin")`. -/
theorem require_staff_admin_allow {users : List User} {sess : Session}
    {sid : Nat} {u : User} (h1 : sess.staff_id = some sid)
    (h2 : findUser users sid = some u) (h3 : u.role = "admin") :
    require_staff users (some "admin") sess = .allow u := by
  simp [require_staff, h1, h2, h3]

/-- A `staff_id` that resolves to no account row makes the guard pop the id
and redirect to staff login, for any required role. -/
theorem require_staff_stale {users : List User} {sess : Session} {sid : Nat}
    (h1 : sess.staff_id = some sid) (h2 : findUser users sid = none)
    (role : Option String) :
    require_staff users role sess = .redirectLogin { sess with staff_id := none } := by
  simp [require_staff, h1, h2]

/-- C10: `staff_logout` pops only `staff_id`: a session holding both a
customer phone and a staff id keeps the customer phone (still active) and
loses the staff id, while `logout` (`session.clear()`) removes both
identities. -/
theorem staff_logout_keeps_customer_identity :
    ∀ (p : String) (sid : Nat) (db : List Order),
      (staff_logout ⟨some p, some sid⟩ db).sess = ⟨some p, none⟩ ∧
      (logout ⟨some p, some sid⟩ db).sess = ⟨none, none⟩ :=
  fun _ _ _ => ⟨rfl, rfl⟩

/-- C9: when the session's staff id resolves to no `StaffAccount` row, every
staff-guarded handler (`staff_dashboard`, `enter_payment`, `edit_order`,
`delete_order`) pops the stale id from the session and redirects to the
staff login page, leaving the order table untouched (the protected action
does not run; `staffLoginRedirect` carries the db through unchanged with a
redirect-to-login response). -/
theorem stale_staff_id_cleared_and_denied :
    ∀ (users : List User) (db : List Order) (sess : Session) (sid : Nat)
      (oid : Nat) (pf : PaymentForm) (ef : EditOrderForm),
      sess.staff_id = some sid → findUser users sid = none →
      staff_dashboard users db sess
          = staffLoginRedirect { sess with staff_id := none } db ∧
      enter_payment users db sess oid pf
          = staffLoginRedirect { sess with staff_id := none } db ∧
      edit_order_post users db sess oid ef
          = staffLoginRedirect { sess with staff_id := none } db ∧
      delete_order users db sess oid
          = staffLoginRedirect { sess with staff_id := none } db := by
  intro users db sess sid oid pf ef h1 h2
  refine ⟨?_, ?_, ?_, ?_⟩ <;>
    simp [staff_dashboard, enter_payment, edit_order_post, delete_order,
      require_staff_stale h1 h2]

/-- Witness for C9 at a concrete stale session: no user rows at all, session
`staff_id = 3`. -/
theorem stale_staff_id_cleared_and_denied_witness :
    staff_dashboard [] [] ⟨some "c", some 3⟩
        = staffLoginRedirect ⟨some "c", none⟩ [] ∧
    enter_payment [] [] ⟨some "c", some 3⟩ 1 ⟨none⟩
        = staffLoginRedirect ⟨some "c", none⟩ [] ∧
    edit_order_post [] [] ⟨some "c", some 3⟩ 1 ⟨none, none, none, none, none, none⟩
        = staffLoginRedirect ⟨some "c", none⟩ [] ∧
    delete_order [] [] ⟨some "c", some 3⟩ 1
        = staffLoginRedirect ⟨some "c", none⟩ [] :=
  stale_staff_id_cleared_and_denied [] [] ⟨some "c", some 3⟩ 3 1 ⟨none⟩
    ⟨none, none, none, none, none, none⟩ rfl rfl

/-- C3: on an existing order, `view_order` answers `Forbidden` exactly when
the session carries a customer phone different from the order's phone; a
session with no customer identity (whatever its `staff_id`) always gets the
rendered order. -/
theorem view_order_forbidden_iff_phone_mismatch :
    ∀ (db : List Order) (sess : Session) (oid : Nat) (o : Order),
      findOrder db oid = some o →
      (((view_order db sess oid).resp = .forbidden) ↔
        ∃ p, sess.customer_phone = some p ∧ p ≠ o.customer_phone) ∧
      (sess.customer_phone = none →
        (view_order db sess oid).resp = .render "view_order") := by
  intro db sess oid o h
  unfold view_order
  rw [h]
  rcases hc : sess.customer_phone with _ | p
  · simp [hc]
  · by_cases hne : p = o.customer_phone <;> simp [hc, hne]

/-- Witness for C3, following the spec's example: a customer session with
phone "555-1234" viewing the order owned by "555-9999" is Forbidden. -/
theorem view_order_forbidden_iff_phone_mismatch_witness :
    (view_order [⟨7, "555-9999", "addr", 1, false, "offline", "pending", none, 0⟩]
      ⟨some "555-1234", none⟩ 7).resp = .forbidden :=
  ((view_order_forbidden_iff_phone_mismatch
      [⟨7, "555-9999", "addr", 1, false, "offline", "pending", none, 0⟩]
      ⟨some "555-1234", none⟩ 7
      ⟨7, "555-9999", "addr", 1, false, "offline", "pending", none, 0⟩
      (by decide)).1).mpr ⟨"555-1234", rfl, by decide⟩

/-- C7: `enter_payment` on an existing order with details that trim to the
empty string flashes a validation error, redirects to the staff dashboard
and mutates nothing: the order table (in particular `payment_status` and
`payment_details` of the order) is returned unchanged. -/
theorem enter_payment_blank_details_no_mutation :
    ∀ (users : List User) (db : List Order) (sess : Session) (sid : Nat)
      (u : User) (oid : Nat) (o : Order) (d : Option String),
      sess.staff_id = some sid → findUser users sid = some u →
      findOrder db oid = some o → pyStrip (d.getD "") = "" →
      enter_payment users db sess oid ⟨d⟩
        = ⟨sess, db, .redirect .staffDashboard, [("Enter payment details.", "error")]⟩ := by
  intro users db sess sid u oid o d h1 h2 h3 h4
  simp [enter_payment, require_staff_resolved_allow h1 h2, h3, h4]

/-- Witness for C7: whitespace-only details on a concrete pending order. -/
theorem enter_payment_blank_details_no_mutation_witness :
    enter_payment [⟨1, "mgr1", "h", "manager"⟩]
        [⟨5, "555", "addr", 1, false, "offline", "pending", none, 0⟩]
        ⟨none, some 1⟩ 5 ⟨some "   "⟩
      = ⟨⟨none, some 1⟩, [⟨5, "555", "addr", 1, false, "offline", "pending", none, 0⟩],
          .redirect .staffDashboard, [("Enter payment details.", "error")]⟩ :=
  enter_payment_blank_details_no_mutation [⟨1, "mgr1", "h", "manager"⟩]
    [⟨5, "555", "addr", 1, false, "offline", "pending", none, 0⟩]
    ⟨none, some 1⟩ 1 ⟨1, "mgr1", "h", "manager"⟩ 5
    ⟨5, "555", "addr", 1, false, "offline", "pending", none, 0⟩ (some "   ")
    rfl rfl (by decide) (by decide)

/-- C5: a staff session resolving to a non-admin account (e.g. a manager) is
refused by `edit_order` and `delete_order` with the permission-denied flash
and a redirect to the staff dashboard — not the login page — and with no
change to the order table or the session; the same identity still renders
the staff order list and successfully records a payment on an existing
order. -/
theorem admin_only_edit_delete :
    ∀ (users : List User) (db : List Order) (sess : Session) (sid : Nat)
      (u : User),
      sess.staff_id = some sid → findUser users sid = some u →
      u.role ≠ "admin" →
      (∀ (oid : Nat) (ef : EditOrderForm),
        edit_order_post users db sess oid ef
          = ⟨sess, db, .redirect .staffDashboard, [("Permission denied.", "error")]⟩) ∧
      (∀ oid : Nat,
        delete_order users db sess oid
          = ⟨sess, db, .redirect .staffDashboard, [("Permission denied.", "error")]⟩) ∧
      staff_dashboard users db sess = ⟨sess, db, .render "staff_dashboard", []⟩ ∧
      (∀ (oid : Nat) (o : Order) (d : Option String),
        findOrder db oid = some o → pyStrip (d.getD "") ≠ "" →
        (enter_payment users db sess oid ⟨d⟩).resp = .redirect .staffDashboard ∧
        (enter_payment users db sess oid ⟨d⟩).flashes = [("Payment recorded.", "success")]) := by
  intro users db sess sid u h1 h2 h3
  refine ⟨?_, ?_, ?_, ?_⟩
  · intro oid ef
    simp [edit_order_post, require_staff_admin_denied h1 h2 h3, permissionDeniedResult]
  · intro oid
    simp [delete_order, require_staff_admin_denied h1 h2 h3, permissionDeniedResult]
  · simp [staff_dashboard, require_staff_resolved_allow h1 h2]
  · intro oid o d ho hd
    simp [enter_payment, require_staff_resolved_allow h1 h2, ho, hd]

/-- Witness for C5: the manager account "mgr1" is denied edit_order but
records a payment on the same order. -/
theorem admin_only_edit_delete_witness :
    (edit_order_post [⟨2, "mgr1", "h", "manager"⟩]
        [⟨5, "555", "addr", 1, false, "offline", "pending", none, 0⟩]
        ⟨none, some 2⟩ 5 ⟨none, none, none, none, none, none⟩
      = ⟨⟨none, some 2⟩, [⟨5, "555", "addr", 1, false, "offline", "pending", none, 0⟩],
          .redirect .staffDashboard, [("Permission denied.", "error")]⟩) ∧
    (enter_payment [⟨2, "mgr1", "h", "manager"⟩]
        [⟨5, "555", "addr", 1, false, "offline", "pending", none, 0⟩]
        ⟨none, some 2⟩ 5 ⟨some "cash"⟩).resp = .redirect .staffDashboard := by
  have h := admin_only_edit_delete [⟨2, "mgr1", "h", "manager"⟩]
    [⟨5, "555", "addr", 1, false, "offline", "pending", none, 0⟩]
    ⟨none, some 2⟩ 2 ⟨2, "mgr1", "h", "manager"⟩ rfl rfl (by decide)
  exact ⟨h.1 5 ⟨none, none, none, none, none, none⟩,
    (h.2.2.2 5 ⟨5, "555", "addr", 1, false, "offline", "pending", none, 0⟩
      (some "cash") (by decide) (by decide)).1⟩

/-- C6: for a resolved staff account, `enter_payment` on an unknown order id
is a 404 with no mutation; on an existing order with details that trim
non-empty it redirects to the staff dashboard and every row with that order
id now has `payment_status = "paid"` and `payment_details` equal to the
staff username, `": "`, and the trimmed details — regardless of what the
row held before, so a repeated call by another staff member simply
overwrites the attribution (last writer wins, no history) — while rows with
other ids are untouched. -/
theorem enter_payment_attribution :
    ∀ (users : List User) (db : List Order) (sess : Session) (sid : Nat)
      (u : User) (oid : Nat) (d : Option String),
      sess.staff_id = some sid → findUser users sid = some u →
      (findOrder db oid = none →
        enter_payment users db sess oid ⟨d⟩ = ⟨sess, db, .notFound, []⟩) ∧
      (∀ o : Order, findOrder db oid = some o → pyStrip (d.getD "") ≠ "" →
        (enter_payment users db sess oid ⟨d⟩).resp = .redirect .staffDashboard ∧
        (∀ x : Order, x ∈ (enter_payment users db sess oid ⟨d⟩).db →
          (x.id = oid → x.payment_status = "paid" ∧
            x.payment_details = some (u.username ++ ": " ++ pyStrip (d.getD ""))) ∧
          (x.id ≠ oid → x ∈ db))) := by
  intro users db sess sid u oid d h1 h2
  constructor
  · intro hnone
    simp [enter_payment, require_staff_resolved_allow h1 h2, hnone]
  · intro o ho hd
    have hres : enter_payment users db sess oid ⟨d⟩
        = ⟨sess,
            db.map (fun x =>
              if x.id = oid then
                { x with
                  payment_details := some (u.username ++ ": " ++ pyStrip (d.getD "")),
                  payment_status := "paid" }
              else x),
            .redirect .staffDashboard, [("Payment recorded.", "success")]⟩ := by
      simp [enter_payment, require_staff_resolved_allow h1 h2, ho, hd]
    rw [hres]
    refine ⟨rfl, ?_⟩
    intro x hx
    rcases List.mem_map.1 hx with ⟨y, hy, hxy⟩
    by_cases hid : y.id = oid
    · rw [if_pos hid] at hxy
      subst hxy
      exact ⟨fun _ => ⟨rfl, rfl⟩, fun hne => absurd hid hne⟩
    · rw [if_neg hid] at hxy
      subst hxy
      exact ⟨fun h => absurd h hid, fun _ => hy⟩

/-- Witness for C6, following the spec's example: "mgr1" recording
"cash received" on pending order 5 marks it paid with attribution
"mgr1: cash received", and order id 99 does not exist so it is a 404. -/
theorem enter_payment_attribution_witness :
    (enter_payment [⟨1, "mgr1", "h", "manager"⟩]
        [⟨5, "555", "addr", 1, false, "offline", "pending", none, 0⟩]
        ⟨none, some 1⟩ 99 ⟨some "cash received"⟩
      = ⟨⟨none, some 1⟩, [⟨5, "555", "addr", 1, false, "offline", "pending", none, 0⟩],
          .notFound, []⟩) ∧
    ((⟨5, "555", "addr", 1, false, "offline", "paid", some "mgr1: cash received", 0⟩ : Order).payment_status
        = "paid" ∧
      (⟨5, "555", "addr", 1, false, "offline", "paid", some "mgr1: cash received", 0⟩ : Order).payment_details
        = some ("mgr1" ++ ": " ++ pyStrip ((some "cash received").getD ""))) := by
  have h404 := (enter_payment_attribution [⟨1, "mgr1", "h", "manager"⟩]
    [⟨5, "555", "addr", 1, false, "offline", "pending", none, 0⟩]
    ⟨none, some 1⟩ 1 ⟨1, "mgr1", "h", "manager"⟩ 99 (some "cash received")
    rfl rfl).1 (by decide)
  have hpaid := (((enter_payment_attribution [⟨1, "mgr1", "h", "manager"⟩]
    [⟨5, "555", "addr", 1, false, "offline", "pending", none, 0⟩]
    ⟨none, some 1⟩ 1 ⟨1, "mgr1", "h", "manager"⟩ 5 (some "cash received")
    rfl rfl).2
    ⟨5, "555", "addr", 1, false, "offline", "pending", none, 0⟩
    (by decide) (by decide)).2
    ⟨5, "555", "addr", 1, false, "offline", "paid", some "mgr1: cash received", 0⟩
    (by decide)).1 (by decide)
  exact ⟨h404, hpaid⟩

/-- C8: under a customer session, when the resolved phone and the trimmed
address are non-empty, `place_order` always succeeds (redirect with the
success flash, never a rejection, whatever the `cans` field holds), and the
row it appends has `payment_status = "pending"`, no `payment_details`,
`cooling` true exactly when the raw cooling value is the literal `"yes"`,
and `cans` equal to the parsed integer, defaulting to `1` when the field is
absent or fails to parse. -/
theorem place_order_defaults :
    ∀ (db : List Order) (sp : String) (st : Option Nat) (f : PlaceOrderForm)
      (nid now : Nat),
      pyStrip (f.address.getD "") ≠ "" →
      (if pyStrip (f.phone.getD "") ≠ "" then pyStrip (f.phone.getD "") else sp) ≠ "" →
      (place_order db ⟨some sp, st⟩ f nid now).resp = .redirect .customerDashboard ∧
      (place_order db ⟨some sp, st⟩ f nid now).flashes = [("Order placed.", "success")] ∧
      (∀ x : Order, (place_order db ⟨some sp, st⟩ f nid now).db = db ++ [x] →
        x.payment_status = "pending" ∧ x.payment_details = none ∧
        (x.cooling = true ↔ f.cooling.getD "no" = "yes") ∧
        (f.cans = none → x.cans = 1) ∧
        (∀ s, f.cans = some s → pyInt s = none → x.cans = 1) ∧
        (∀ s n, f.cans = some s → pyInt s = some n → x.cans = n)) := by
  intro db sp st f nid now haddr hphone
  have hres : place_order db ⟨some sp, st⟩ f nid now
      = ⟨⟨some sp, st⟩,
          db ++ [{ id := nid,
                   customer_phone :=
                     if pyStrip (f.phone.getD "") ≠ "" then pyStrip (f.phone.getD "")
                     else sp,
                   customer_address := pyStrip (f.address.getD ""),
                   cans := match f.cans with
                           | none => 1
                           | some s => (pyInt s).getD 1,
                   cooling := f.cooling.getD "no" == "yes",
                   payment_method := f.payment_method.getD "offline",
                   payment_status := "pending", payment_details := none,
                   created_at := now }],
          .redirect .customerDashboard, [("Order placed.", "success")]⟩ := by
    simp only [place_order]
    rw [if_neg]
    push_neg
    exact ⟨haddr, hphone⟩
  rw [hres]
  refine ⟨rfl, rfl, ?_⟩
  intro x hx
  have hx' : x = { id := nid,
                   customer_phone :=
                     if pyStrip (f.phone.getD "") ≠ "" then pyStrip (f.phone.getD "")
                     else sp,
                   customer_address := pyStrip (f.address.getD ""),
                   cans := match f.cans with
                           | none => 1
                           | some s => (pyInt s).getD 1,
                   cooling := f.cooling.getD "no" == "yes",
                   payment_method := f.payment_method.getD "offline",
                   payment_status := "pending", payment_details := none,
                   created_at := now } := by
    have h := List.append_cancel_left hx
    simpa using h.symm
  subst hx'
  refine ⟨rfl, rfl, ?_, ?_, ?_, ?_⟩
  · simp only [beq_iff_eq]
  · intro hc
    simp [hc]
  · intro s hc hp
    simp [hc, hp]
  · intro s n hc hp
    simp [hc, hp]

/-- Witness for C8, following the spec's example: `cans_raw = "abc"` yields
an order with `cans = 1`, not a rejection. -/
theorem place_order_defaults_witness :
    (place_order [] ⟨some "555", none⟩ ⟨none, some "abc", none, some "addr", none⟩ 1 0).resp
        = .redirect .customerDashboard ∧
    (⟨1, "555", "addr", 1, false, "offline", "pending", none, 0⟩ : Order).cans = 1 := by
  have h := place_order_defaults [] "555" none
    ⟨none, some "abc", none, some "addr", none⟩ 1 0 (by decide) (by decide)
  exact ⟨h.1, (h.2.2 ⟨1, "555", "addr", 1, false, "offline", "pending", none, 0⟩
    (by decide)).2.2.2.2.1 "abc" rfl (by decide)⟩

/-- C1 counterexample: an admin submits an edit patch with no fields at all
to order 7, whose `cooling` is `true`; the resulting row has
`cooling = false`, so a field absent from the patch does not leave the
corresponding order field unchanged. -/
theorem edit_order_absent_cooling_reset :
    (edit_order_post [⟨1, "root", "h", "admin"⟩]
        [⟨7, "555", "addr", 2, true, "offline", "pending", none, 0⟩]
        ⟨none, some 1⟩ 7 ⟨none, none, none, none, none, none⟩).db
      = [⟨7, "555", "addr", 2, false, "offline", "pending", none, 0⟩] ∧
    (⟨7, "555", "addr", 2, true, "offline", "pending", none, 0⟩ : Order).cooling = true ∧
    (⟨7, "555", "addr", 2, false, "offline", "pending", none, 0⟩ : Order).cooling = false := by
  decide

/-- C1 (amended): for an admin session and an existing order, `edit_order`
never fails on a bad field (it always redirects to the staff dashboard);
rows with other ids are untouched; the patched row is `apply_edit f x`,
where each present field overwrites, a `cans` value that fails to parse is
silently ignored, each absent field is retained — except `cooling`, which
is always recomputed as (raw value = "yes") with absence treated as "no",
so an absent `cooling` field resets `cooling` to `false`. -/
theorem edit_order_patch_semantics :
    ∀ (users : List User) (db : List Order) (sess : Session) (sid : Nat)
      (u : User) (oid : Nat) (f : EditOrderForm) (o : Order),
      sess.staff_id = some sid → findUser users sid = some u →
      u.role = "admin" → findOrder db oid = some o →
      (edit_order_post users db sess oid f).resp = .redirect .staffDashboard ∧
      (∀ x ∈ db, x.id ≠ oid → x ∈ (edit_order_post users db sess oid f).db) ∧
      (∀ x ∈ db, x.id = oid → apply_edit f x ∈ (edit_order_post users db sess oid f).db) ∧
      (∀ x : Order,
        (∀ s, f.customer_address = some s → (apply_edit f x).customer_address = s) ∧
        (f.customer_address = none →
          (apply_edit f x).customer_address = x.customer_address) ∧
        (∀ s n, f.cans = some s → pyInt s = some n → (apply_edit f x).cans = n) ∧
        (∀ s, f.cans = some s → pyInt s = none → (apply_edit f x).cans = x.cans) ∧
        (f.cans = none → (apply_edit f x).cans = x.cans) ∧
        (∀ s, f.payment_method = some s → (apply_edit f x).payment_method = s) ∧
        (f.payment_method = none →
          (apply_edit f x).payment_method = x.payment_method) ∧
        (∀ s, f.payment_status = some s → (apply_edit f x).payment_status = s) ∧
        (f.payment_status = none →
          (apply_edit f x).payment_status = x.payment_status) ∧
        (∀ s, f.payment_details = some s →
          (apply_edit f x).payment_details = some s) ∧
        (f.payment_details = none →
          (apply_edit f x).payment_details = x.payment_details) ∧
        ((apply_edit f x).cooling = true ↔ f.cooling.getD "no" = "yes") ∧
        (f.cooling = none → (apply_edit f x).cooling = false)) := by
  intro users db sess sid u oid f o h1 h2 h3 ho
  have hres : edit_order_post users db sess oid f
      = ⟨sess, db.map (fun x => if x.id = oid then apply_edit f x else x),
          .redirect .staffDashboard, [("Order updated.", "success")]⟩ := by
    simp [edit_order_post, require_staff_admin_allow h1 h2 h3, ho]
  refine ⟨by rw [hres], ?_, ?_, ?_⟩
  · intro x hx hne
    rw [hres]
    exact List.mem_map.2 ⟨x, hx, by rw [if_neg hne]⟩
  · intro x hx hid
    rw [hres]
    exact List.mem_map.2 ⟨x, hx, by rw [if_pos hid]⟩
  · intro x
    refine ⟨?_, ?_, ?_, ?_, ?_, ?_, ?_, ?_, ?_, ?_, ?_, ?_, ?_⟩ <;>
      first
        | (intro s n hc hp; simp [apply_edit, hc, hp])
        | (intro s hc hp; simp [apply_edit, hc, hp])
        | (intro hc; simp [apply_edit, hc])
        | (intro s hc; simp [apply_edit, hc])
        | (simp only [apply_edit, beq_iff_eq])

/-- Witness for C1 (amended): admin patches order 7 with a new address and
the unparsable quantity "abc"; the call succeeds, the address is
overwritten and the quantity keeps its old value. -/
theorem edit_order_patch_semantics_witness :
    (edit_order_post [⟨1, "root", "h", "admin"⟩]
        [⟨7, "555", "addr", 2, true, "offline", "pending", none, 0⟩]
        ⟨none, some 1⟩ 7
        ⟨some "new addr", some "abc", none, none, none, none⟩).resp
      = .redirect .staffDashboard ∧
    (apply_edit ⟨some "new addr", some "abc", none, none, none, none⟩
        ⟨7, "555", "addr", 2, true, "offline", "pending", none, 0⟩).customer_address
      = "new addr" ∧
    (apply_edit ⟨some "new addr", some "abc", none, none, none, none⟩
        ⟨7, "555", "addr", 2, true, "offline", "pending", none, 0⟩).cans
      = (⟨7, "555", "addr", 2, true, "offline", "pending", none, 0⟩ : Order).cans := by
  have h := edit_order_patch_semantics [⟨1, "root", "h", "admin"⟩]
    [⟨7, "555", "addr", 2, true, "offline", "pending", none, 0⟩]
    ⟨none, some 1⟩ 1 ⟨1, "root", "h", "admin"⟩ 7
    ⟨some "new addr", some "abc", none, none, none, none⟩
    ⟨7, "555", "addr", 2, true, "offline", "pending", none, 0⟩
    rfl rfl rfl (by decide)
  refine ⟨h.1, ?_, ?_⟩
  · exact (h.2.2.2 ⟨7, "555", "addr", 2, true, "offline", "pending", none, 0⟩).1
      "new addr" rfl
  · exact (h.2.2.2 ⟨7, "555", "addr", 2, true, "offline", "pending", none, 0⟩).2.2.2.1
      "abc" rfl (by decide)

/-- C2 counterexample: an admin edit patch carrying
`payment_status = "banana"` stores that literal string on the order, which
is neither "pending" nor "paid"; and `place_order` stores the submitted
`payment_method = "cash"` verbatim, which is neither "online" nor
"offline". -/
theorem order_invariant_breakable :
    ((edit_order_post [⟨1, "root", "h", "admin"⟩]
        [⟨7, "555", "addr", 1, false, "offline", "pending", none, 0⟩]
        ⟨none, some 1⟩ 7 ⟨none, none, none, none, some "banana", none⟩).db
      = [⟨7, "555", "addr", 1, false, "offline", "banana", none, 0⟩]) ∧
    ¬((⟨7, "555", "addr", 1, false, "offline", "banana", none, 0⟩ : Order).payment_status
          = "pending" ∨
      (⟨7, "555", "addr", 1, false, "offline", "banana", none, 0⟩ : Order).payment_status
          = "paid") ∧
    ((place_order [] ⟨some "555", none⟩ ⟨none, none, none, some "addr", some "cash"⟩ 1 0).db
      = [⟨1, "555", "addr", 1, false, "cash", "pending", none, 0⟩]) ∧
    ¬((⟨1, "555", "addr", 1, false, "cash", "pending", none, 0⟩ : Order).payment_method
          = "online" ∨
      (⟨1, "555", "addr", 1, false, "cash", "pending", none, 0⟩ : Order).payment_method
          = "offline") := by
  decide

/-- C2 (amended): after `place_order` every row is an old row or a fresh one
with `payment_status = "pending"`, no `payment_details`, non-empty phone and
address, and `payment_method` copied verbatim from the form (default
"offline" — so in {online, offline} only if submitted so); `enter_payment`
keeps each row's phone, address and method and either keeps its status or
sets it to "paid"; `delete_order` only removes rows; `edit_order` keeps each
row's `customer_phone` (hence its non-emptiness) but may replace status,
method and address with arbitrary patch strings. -/
theorem order_store_invariants :
    ∀ (users : List User) (db : List Order) (sess : Session) (oid : Nat)
      (d : Option String) (f : PlaceOrderForm) (ef : EditOrderForm)
      (nid now : Nat),
      (∀ x ∈ (place_order db sess f nid now).db,
        x ∈ db ∨
          (x.payment_status = "pending" ∧ x.payment_details = none ∧
            x.customer_phone ≠ "" ∧ x.customer_address ≠ "" ∧
            x.payment_method = f.payment_method.getD "offline")) ∧
      (∀ x ∈ (enter_payment users db sess oid ⟨d⟩).db,
        ∃ y ∈ db,
          x.customer_phone = y.customer_phone ∧
          x.customer_address = y.customer_address ∧
          x.payment_method = y.payment_method ∧
          (x.payment_status = y.payment_status ∨ x.payment_status = "paid")) ∧
      (∀ x ∈ (delete_order users db sess oid).db, x ∈ db) ∧
      (∀ x ∈ (edit_order_post users db sess oid ef).db,
        ∃ y ∈ db, x.customer_phone = y.customer_phone ∧
          x.created_at = y.created_at) := by
  intro users db sess oid d f ef nid now
  refine ⟨?_, ?_, ?_, ?_⟩
  · rcases hc : sess.customer_phone with _ | sp
    · intro x hx
      simp [place_order, hc] at hx
      exact Or.inl hx
    · intro x hx
      simp only [place_order, hc] at hx
      by_cases hv : pyStrip (f.address.getD "") = "" ∨
          (if pyStrip (f.phone.getD "") ≠ "" then pyStrip (f.phone.getD "") else sp) = ""
      · rw [if_pos hv] at hx
        exact Or.inl hx
      · rw [if_neg hv] at hx
        push_neg at hv
        rcases List.mem_append.1 hx with hl | hr
        · exact Or.inl hl
        · refine Or.inr ?_
          have hx' := List.mem_singleton.1 hr
          subst hx'
          exact ⟨rfl, rfl, hv.2, hv.1, rfl⟩
  · rcases hg : require_staff users none sess with s | _ | u
    · simp [enter_payment, hg]
      intro x hx
      exact ⟨x, hx, rfl, rfl, rfl, Or.inl rfl⟩
    · simp [enter_payment, hg]
      intro x hx
      exact ⟨x, hx, rfl, rfl, rfl, Or.inl rfl⟩
    · rcases ho : findOrder db oid with _ | o
      · simp [enter_payment, hg, ho]
        intro x hx
        exact ⟨x, hx, rfl, rfl, rfl, Or.inl rfl⟩
      · by_cases hd : pyStrip (d.getD "") = ""
        · simp [enter_payment, hg, ho, hd]
          intro x hx
          exact ⟨x, hx, rfl, rfl, rfl, Or.inl rfl⟩
        · intro x hx
          simp [enter_payment, hg, ho, hd] at hx
          rcases hx with ⟨y, hy, hxy⟩
          by_cases hid : y.id = oid
          · rw [if_pos hid] at hxy
            subst hxy
            exact ⟨y, hy, rfl, rfl, rfl, Or.inr rfl⟩
          · rw [if_neg hid] at hxy
            subst hxy
            exact ⟨y, hy, rfl, rfl, rfl, Or.inl rfl⟩
  · rcases hg : require_staff users (some "admin") sess with s | _ | u
    · intro x hx
      simp only [delete_order, hg] at hx
      exact hx
    · intro x hx
      simp only [delete_order, hg] at hx
      exact hx
    · rcases ho : findOrder db oid with _ | o
      · intro x hx
        simp [delete_order, hg, ho] at hx
        exact hx
      · intro x hx
        simp [delete_order, hg, ho] at hx
        exact hx.1
  · rcases hg : require_staff users (some "admin") sess with s | _ | u
    · intro x hx
      simp only [edit_order_post, hg] at hx
      exact ⟨x, hx, rfl, rfl⟩
    · intro x hx
      simp only [edit_order_post, hg] at hx
      exact ⟨x, hx, rfl, rfl⟩
    · rcases ho : findOrder db oid with _ | o
      · intro x hx
        simp [edit_order_post, hg, ho] at hx
        exact ⟨x, hx, rfl, rfl⟩
      · intro x hx
        simp [edit_order_post, hg, ho] at hx
        rcases hx with ⟨y, hy, hxy⟩
        by_cases hid : y.id = oid
        · rw [if_pos hid] at hxy
          subst hxy
          exact ⟨y, hy, rfl, rfl⟩
        · rw [if_neg hid] at hxy
          subst hxy
          exact ⟨y, hy, rfl, rfl⟩

/-- Witness for C2 (amended): the row created by a concrete successful
`place_order` call satisfies the creation-time field properties. -/
theorem order_store_invariants_witness :
    (⟨1, "555", "addr", 1, false, "offline", "pending", none, 0⟩ : Order)
        ∈ ([] : List Order) ∨
      ((⟨1, "555", "addr", 1, false, "offline", "pending", none, 0⟩ : Order).payment_status
          = "pending" ∧
        (⟨1, "555", "addr", 1, false, "offline", "pending", none, 0⟩ : Order).payment_details
          = none ∧
        (⟨1, "555", "addr", 1, false, "offline", "pending", none, 0⟩ : Order).customer_phone
          ≠ "" ∧
        (⟨1, "555", "addr", 1, false, "offline", "pending", none, 0⟩ : Order).customer_address
          ≠ "" ∧
        (⟨1, "555", "addr", 1, false, "offline", "pending", none, 0⟩ : Order).payment_method
          = (⟨none, none, none, some "addr", none⟩ : PlaceOrderForm).payment_method.getD
              "offline") :=
  (order_store_invariants [] [] ⟨some "555", none⟩ 0 none
      ⟨none, none, none, some "addr", none⟩ ⟨none, none, none, none, none, none⟩ 1 0).1
    ⟨1, "555", "addr", 1, false, "offline", "pending", none, 0⟩ (by decide)

/-- C4 counterexample: `route_send_otp` with the phone `" 5 "` (non-empty
after trimming, so the claim requires the stored phone to be exactly
`" 5 "`) stores the trimmed `"5"` instead. -/
theorem send_otp_stores_trimmed_phone :
    (route_send_otp ⟨none, none⟩ [] (some " 5 ")).sess.customer_phone = some "5" ∧
    pyStrip " 5 " ≠ "" ∧ ("5" : String) ≠ " 5 " := by
  decide

/-- C4 (amended): for a phone that is non-empty after trimming,
`route_send_otp` succeeds (redirect to the customer dashboard) and the
session's customer phone becomes exactly the trimmed phone (equal to the
input whenever it carries no surrounding whitespace), leaving `staff_id`
alone; for a phone that trims to empty (including the empty string) it
fails with the validation-error flash and the session is unchanged. -/
theorem send_otp_contract :
    ∀ (sess : Session) (db : List Order) (p : String),
      (pyStrip p ≠ "" →
        (route_send_otp sess db (some p)).sess.customer_phone = some (pyStrip p) ∧
        (route_send_otp sess db (some p)).sess.staff_id = sess.staff_id ∧
        (route_send_otp sess db (some p)).resp = .redirect .customerDashboard) ∧
      (pyStrip p = "" →
        (route_send_otp sess db (some p)).sess = sess ∧
        (route_send_otp sess db (some p)).resp = .redirect .index ∧
        (route_send_otp sess db (some p)).flashes
          = [("Enter phone number.", "error")]) := by
  intro sess db p
  constructor
  · intro h
    simp [route_send_otp, h]
  · intro h
    simp [route_send_otp, h]

/-- Witness for C4 (amended): phone "555" is stored as submitted; the
all-whitespace phone " " leaves a concrete session untouched. -/
theorem send_otp_contract_witness :
    (route_send_otp ⟨none, none⟩ [] (some "555")).sess.customer_phone = some "555" ∧
    (route_send_otp ⟨some "x", some 2⟩ [] (some " ")).sess = ⟨some "x", some 2⟩ := by
  have h1 := (send_otp_contract ⟨none, none⟩ [] "555").1 (by decide)
  have h2 := (send_otp_contract ⟨some "x", some 2⟩ [] " ").2 (by decide)
  exact ⟨h1.1, h2.1⟩

end ChaitanyaWater
